import Mathlib

/-!
Verification of the ITU-R P.837 rain model implementation (`itur/models/itu837.py`).

The source operates on numpy float64 arrays.  Scalars are modelled by `EF`, an
IEEE-style extended value: a finite rational (kept as an unnormalised
numerator/denominator pair `Fr`, so that all operations reduce in the kernel),
positive infinity, negative infinity, or NaN.  Finite arithmetic is exact
rational arithmetic (rounding is not modelled); the special values follow the
IEEE rules numpy uses (`x/0 = ±inf` for `x ≠ 0`, `0/0 = NaN`, `0 * inf = NaN`,
`inf - inf = NaN`, any comparison with NaN is false, `exp(-inf) = 0`,
`log(0) = -inf`, `sqrt` of a negative value or NaN is NaN).  The transcendental
functions on finite values are abstract parameters (`FloatOps`): a float
implementation returns some float, and no claim depends on which.

Arrays are modelled as lists of per-point values; `np.where(c, a, b)` selects
per point between its two already evaluated array arguments.
-/

namespace ITU837

/-- Fr is an exact rational scalar in unnormalised fraction form.  All
operations below keep the denominator positive, and literals are built with
denominator `1` (or the literal denominator of the source's decimal constants),
so sign tests on the numerator are sign tests on the value. -/
structure Fr where
  num : ℤ
  den : ℤ
deriving DecidableEq

def Fr.ofInt (n : ℤ) : Fr := ⟨n, 1⟩

def Fr.neg (a : Fr) : Fr := ⟨-a.num, a.den⟩

def Fr.add (a b : Fr) : Fr := ⟨a.num * b.den + b.num * a.den, a.den * b.den⟩

def Fr.sub (a b : Fr) : Fr := Fr.add a (Fr.neg b)

def Fr.mul (a b : Fr) : Fr := ⟨a.num * b.num, a.den * b.den⟩

/-- Division of finite values (only used with a nonzero divisor; the sign swap
keeps the denominator positive). -/
def Fr.div (a b : Fr) : Fr :=
  if 0 ≤ b.num then ⟨a.num * b.den, a.den * b.num⟩
  else ⟨-(a.num * b.den), -(a.den * b.num)⟩

/-- Strict comparison of finite values (valid for positive denominators). -/
def Fr.blt (a b : Fr) : Bool := decide (a.num * b.den < b.num * a.den)

def Fr.isZero (a : Fr) : Bool := decide (a.num = 0)

def Fr.isPos (a : Fr) : Bool := decide (0 < a.num)

def Fr.isNeg (a : Fr) : Bool := decide (a.num < 0)

/-- EF is a numpy float64 value: finite, `inf`, `-inf`, or NaN. -/
inductive EF where
  | fin (q : Fr)
  | inf
  | ninf
  | nan
deriving DecidableEq

def EF.isnan : EF → Bool
  | .nan => true
  | _ => false

def EF.neg : EF → EF
  | .fin q => .fin (Fr.neg q)
  | .inf => .ninf
  | .ninf => .inf
  | .nan => .nan

def EF.add : EF → EF → EF
  | .nan, _ => .nan
  | _, .nan => .nan
  | .inf, .ninf => .nan
  | .ninf, .inf => .nan
  | .inf, _ => .inf
  | _, .inf => .inf
  | .ninf, _ => .ninf
  | _, .ninf => .ninf
  | .fin a, .fin b => .fin (Fr.add a b)

def EF.sub (x y : EF) : EF := EF.add x (EF.neg y)

def EF.mul : EF → EF → EF
  | .nan, _ => .nan
  | _, .nan => .nan
  | .fin a, .fin b => .fin (Fr.mul a b)
  | .fin a, .inf => if a.isPos then .inf else if a.isNeg then .ninf else .nan
  | .inf, .fin a => if a.isPos then .inf else if a.isNeg then .ninf else .nan
  | .fin a, .ninf => if a.isPos then .ninf else if a.isNeg then .inf else .nan
  | .ninf, .fin a => if a.isPos then .ninf else if a.isNeg then .inf else .nan
  | .inf, .inf => .inf
  | .inf, .ninf => .ninf
  | .ninf, .inf => .ninf
  | .ninf, .ninf => .inf

def EF.div : EF → EF → EF
  | .nan, _ => .nan
  | _, .nan => .nan
  | .fin a, .fin b =>
      if b.isZero then
        (if a.isZero then .nan else if a.isPos then .inf else .ninf)
      else .fin (Fr.div a b)
  | .fin _, .inf => .fin (Fr.ofInt 0)
  | .fin _, .ninf => .fin (Fr.ofInt 0)
  | .inf, .fin b => if b.isNeg then .ninf else .inf
  | .ninf, .fin b => if b.isNeg then .inf else .ninf
  | .inf, .inf => .nan
  | .inf, .ninf => .nan
  | .ninf, .inf => .nan
  | .ninf, .ninf => .nan

/-- IEEE strict greater-than: any comparison involving NaN is false. -/
def EF.gt : EF → EF → Bool
  | .nan, _ => false
  | _, .nan => false
  | .fin a, .fin b => Fr.blt b a
  | .inf, .inf => false
  | _, .inf => false
  | .inf, _ => true
  | .ninf, _ => false
  | .fin _, .ninf => true

instance : Neg EF := ⟨EF.neg⟩

instance : Add EF := ⟨EF.add⟩

instance : Sub EF := ⟨EF.sub⟩

instance : Mul EF := ⟨EF.mul⟩

instance : Div EF := ⟨EF.div⟩

/-- FloatOps supplies the finite cases of the transcendental functions: a float
implementation of exp/log/sqrt returns some float at each finite argument.  No
claim depends on the values, so they are arbitrary parameters. -/
structure FloatOps where
  exp : Fr → Fr
  log : Fr → Fr
  sqrt : Fr → Fr

/-- Models `np.exp`: `exp(-inf) = 0`, `exp(inf) = inf`, `exp(nan) = nan`. -/
def EF.exp (F : FloatOps) : EF → EF
  | .fin q => .fin (F.exp q)
  | .inf => .inf
  | .ninf => .fin (Fr.ofInt 0)
  | .nan => .nan

/-- Models `np.log`: `log` of a negative value is NaN, `log(0) = -inf`,
`log(inf) = inf`, `log(nan) = nan`. -/
def EF.log (F : FloatOps) : EF → EF
  | .fin q => if q.isNeg then .nan else if q.isZero then .ninf else .fin (F.log q)
  | .inf => .inf
  | .ninf => .nan
  | .nan => .nan

/-- Models `np.sqrt`: `sqrt` of a negative value is NaN, `sqrt(inf) = inf`,
`sqrt(nan) = nan`. -/
def EF.sqrt (F : FloatOps) : EF → EF
  | .fin q => if q.isNeg then .nan else .fin (F.sqrt q)
  | .inf => .inf
  | .ninf => .nan
  | .nan => .nan

/-- Models `np.where(c, a, b)` at one point: numpy evaluates both array
arguments before the call, so `a` and `b` are already computed values and
`npWhere` only selects between them. -/
def npWhere (c : Bool) (a b : EF) : EF := if c then a else b

/-- Lines 101-107 of itu837.py, per point (`_ITU837_6.rain_percentage_probability`):
`Ms = (1 - Beta) * Mt`; returned value `P0 = Pr6 * (1 - np.exp(-0.0079 * (Ms / Pr6)))`.
There is no guard on `Pr6` here. -/
def P0_unguarded (F : FloatOps) (Pr6 Mt Beta : EF) : EF :=
  let Ms := (EF.fin ⟨1, 1⟩ - Beta) * Mt
  Pr6 * (EF.fin ⟨1, 1⟩ - EF.exp F (EF.fin ⟨-79, 10000⟩ * (Ms / Pr6)))

/-- Line 121 of itu837.py (`_ITU837_6.rainfall_rate`):
`P0 = np.where(Pr6 > 0, Pr6 * (1 - np.exp(-0.0079 * (Ms / Pr6))), 0)`.
The guarded formula is textually the same expression as in
`rain_percentage_probability`. -/
def P0_guarded (F : FloatOps) (Pr6 Mt Beta : EF) : EF :=
  npWhere (EF.gt Pr6 (EF.fin ⟨0, 1⟩)) (P0_unguarded F Pr6 Mt Beta) (EF.fin ⟨0, 1⟩)

/-- Lines 125-131 of itu837.py: the coefficients of the quadratic inside
`computeRp`, as the source computes them (`a = 1.09`, `b = (Mc + Ms)/(21797 * P0)`,
`c = 26.02 * b`, `A = a * b`, `B = a + c * np.log(p / P0)`, `C = np.log(p / P0)`);
`p` is the scalar exceedance argument of `rainfall_rate`.
Returns `(A, B, C)`. -/
def quadCoeffs (F : FloatOps) (p : Fr) (P0 Mc Ms : EF) : EF × EF × EF :=
  let a := EF.fin ⟨109, 100⟩
  let b := (Mc + Ms) / (EF.fin ⟨21797, 1⟩ * P0)
  let c := EF.fin ⟨2602, 100⟩ * b
  (a * b, a + c * EF.log F (EF.fin p / P0), EF.log F (EF.fin p / P0))

/-- The discriminant expression `B**2 - 4 * A * C` that line 133 of itu837.py
passes to `np.sqrt` (with `B**2` written as `B * B`). -/
def quadDisc (F : FloatOps) (p : Fr) (P0 Mc Ms : EF) : EF :=
  let ABC := quadCoeffs F p P0 Mc Ms
  ABC.2.1 * ABC.2.1 - EF.fin ⟨4, 1⟩ * ABC.1 * ABC.2.2

/-- Lines 124-135 of itu837.py: `computeRp`, per point:
`Rp = (-B + np.sqrt(B**2 - 4 * A * C)) / (2 * A)`. -/
def computeRp (F : FloatOps) (p : Fr) (P0 Mc Ms : EF) : EF :=
  let ABC := quadCoeffs F p P0 Mc Ms
  (-ABC.2.1 + EF.sqrt F (quadDisc F p P0 Mc Ms)) / (EF.fin ⟨2, 1⟩ * ABC.1)

/-- P0 formula exactly as the spec words it: "Compute Ms = (1 - Beta) * Mt.
Compute P0 = Pr6 * (1 - exp(-0.0079 * Ms / Pr6))" (spec-side definition,
compared against the source's `P0_unguarded` in C6; the association of the
product inside exp, which the prose leaves open, is mathematically
immaterial and taken as in the source). -/
def P0_spec (F : FloatOps) (Pr6 Mt Beta : EF) : EF :=
  let Ms := (EF.fin ⟨1, 1⟩ - Beta) * Mt
  Pr6 * (EF.fin ⟨1, 1⟩ - EF.exp F (EF.fin ⟨-79, 10000⟩ * (Ms / Pr6)))

/-- The rainfall-rate quadratic solution exactly as the spec words it:
"a=1.09, b=(Mc+Ms)/(21797*P0), c=26.02*b, A=a*b, B=a+c*ln(p/P0), C=ln(p/P0),
Rp = (-B + sqrt(B^2 - 4*A*C)) / (2*A)" (spec-side definition, compared against
the source's `computeRp` in C3). -/
def Rp_spec (F : FloatOps) (p : Fr) (P0 Mc Ms : EF) : EF :=
  let a := EF.fin ⟨109, 100⟩
  let b := (Mc + Ms) / (EF.fin ⟨21797, 1⟩ * P0)
  let c := EF.fin ⟨2602, 100⟩ * b
  let A := a * b
  let B := a + c * EF.log F (EF.fin p / P0)
  let C := EF.log F (EF.fin p / P0)
  (-B + EF.sqrt F (B * B - EF.fin ⟨4, 1⟩ * A * C)) / (EF.fin ⟨2, 1⟩ * A)

/-- Lines 109-139 of itu837.py, per point (`_ITU837_6.rainfall_rate`):
`Mc = Beta * Mt`; `Ms = (1 - Beta) * Mt`; `P0` is the guarded Eq. 1; the result
is `np.where(np.isnan(P0) | (p > P0), 0, computeRp(P0, Mc, Ms))`.  Both
branches of the `np.where` are evaluated arrays; the selection is per point. -/
def rainfall_rate_point (F : FloatOps) (p : Fr) (Pr6 Mt Beta : EF) : EF :=
  let Mc := Beta * Mt
  let Ms := (EF.fin ⟨1, 1⟩ - Beta) * Mt
  let P0 := P0_guarded F Pr6 Mt Beta
  npWhere (EF.isnan P0 || EF.gt (EF.fin p) P0) (EF.fin ⟨0, 1⟩) (computeRp F p P0 Mc Ms)

/-- The three interpolated fields of version 6 as point functions of
`(lat, lon)`.  The bilinear interpolator that produces them
(`models.itu1144.bilinear_2D_interpolator`) is outside this source file; each
field is an arbitrary deterministic function of the query point, which is all
the claims use. -/
structure Fields where
  Pr6 : ℚ → ℚ → EF
  Mt : ℚ → ℚ → EF
  Beta : ℚ → ℚ → EF

/-- Lines 93-107 of itu837.py on a whole query (array of points): interpolate
the three fields at each point and apply the P0 formula pointwise. -/
def rain_percentage_probability6 (F : FloatOps) (flds : Fields)
    (pts : List (ℚ × ℚ)) : List EF :=
  pts.map fun q => P0_unguarded F (flds.Pr6 q.1 q.2) (flds.Mt q.1 q.2) (flds.Beta q.1 q.2)

/-- Lines 109-139 of itu837.py on a whole query. -/
def rainfall_rate6 (F : FloatOps) (flds : Fields) (p : Fr)
    (pts : List (ℚ × ℚ)) : List EF :=
  pts.map fun q => rainfall_rate_point F p (flds.Pr6 q.1 q.2) (flds.Mt q.1 q.2) (flds.Beta q.1 q.2)

/-- Models `np.mod(lon, 360)` on a scalar: `lon - 360 * floor(lon / 360)`
(numpy's mod takes the sign of the divisor). -/
def normLon (x : ℚ) : ℚ := x - 360 * (⌊x / 360⌋ : ℚ)

/-- Lines 171-199 of itu837.py: the public facade `rain_percentage_probability`
normalises the longitude of every query point with `np.mod(lon, 360)` and then
delegates to the active model; the latitude is passed through unchanged. -/
def rain_percentage_probability_pub (F : FloatOps) (flds : Fields)
    (pts : List (ℚ × ℚ)) : List EF :=
  rain_percentage_probability6 F flds (pts.map fun q => (q.1, normLon q.2))

/-- Lines 202-232 of itu837.py: the public facade `rainfall_rate`; the
longitude is normalised with `np.mod(lon, 360)`, `p` is passed through. -/
def rainfall_rate_pub (F : FloatOps) (flds : Fields) (p : Fr)
    (pts : List (ℚ × ℚ)) : List EF :=
  rainfall_rate6 F flds p (pts.map fun q => (q.1, normLon q.2))

/-- Python exceptions relevant to `__ITU837.__init__`. -/
inductive PyErr where
  | nameErr
  | valueErr
deriving DecidableEq

/-- Lines 22-37 of itu837.py, `__ITU837.__init__`: branches on the version
number.  The branch for version 6 constructs `_ITU837_6()`; the branches for
versions 5, 4, 3, 2 and 1 evaluate the names `_ITU837_5` .. `_ITU837_1`, which
are defined nowhere in the module (only `_ITU837_6` exists), so those branches
raise `NameError`; the final `else` raises
`ValueError('Version ... is not implemented ...')`.  The result is the
`__version__` attribute of the constructed instance. -/
def ITU837_init (version : ℤ) : Except PyErr ℤ :=
  if version = 6 then .ok 6
  else if version = 5 then .error .nameErr
  else if version = 4 then .error .nameErr
  else if version = 3 then .error .nameErr
  else if version = 2 then .error .nameErr
  else if version = 1 then .error .nameErr
  else .error .valueErr

/-- Lines 144-161 of itu837.py: `change_version` runs
`__model = __ITU837(new_version)`.  The global is reassigned only if the
constructor returns normally; if the constructor raises, the exception
propagates and the previous model stays in place.  The state is the
`__version__` of the active model; the second component reports the raised
exception, if any. -/
def change_version (new_version : ℤ) (model : ℤ) : ℤ × Option PyErr :=
  match ITU837_init new_version with
  | .ok m => (m, none)
  | .error e => (model, some e)

/-- Lines 163-168 of itu837.py: `get_version` returns `__model.__version__`. -/
def get_version (model : ℤ) : ℤ := model

/-- The call arguments of a cached facade call: the scalar `p` (taken as `0`
for `rain_percentage_probability`, which has no `p`) and the query points. -/
abbrev MemoArgs : Type := Fr × List (ℚ × ℚ)

/-- Association-list lookup for the memo cache. -/
def memoLookup : List (MemoArgs × List EF) → MemoArgs → Option (List EF)
  | [], _ => none
  | e :: rest, a => if e.1 = a then some e.2 else memoLookup rest a

/-- Modelled from the spec: the result memoization of the public facade
(`@memory.cache` from `iturutils`, which is repository code not under src/).
Per the spec the facade "memoizes (query inputs) → result for the process
lifetime" and the active version "is not part of the cache key".  The state is
the active version together with the map from call arguments to cached
results. -/
structure MemoState where
  version : ℤ
  cache : List (MemoArgs × List EF)

/-- Modelled from the spec: a cached facade call first consults the cache with
the call arguments alone; on a hit it returns the stored result unchanged, on a
miss it computes under the active version and stores the result under the call
arguments. -/
def cachedCall (compute : ℤ → MemoArgs → List EF) (s : MemoState)
    (a : MemoArgs) : List EF × MemoState :=
  match memoLookup s.cache a with
  | some r => (r, s)
  | none => (compute s.version a, ⟨s.version, (a, compute s.version a) :: s.cache⟩)

/-- Modelled from the spec: the effect of a successful `change_version` on the
memoized facade: the active version is replaced and the result cache is left
untouched (the cache lives in the `memory.cache` decorator, outside the
`__model` global that `change_version` reassigns). -/
def setActiveVersion (v : ℤ) (s : MemoState) : MemoState := ⟨v, s.cache⟩

/-- A concrete FloatOps instance for witnesses (the claims hold for every
FloatOps; witnesses need a computable one). -/
def Ftest : FloatOps := ⟨fun _ => ⟨0, 1⟩, fun _ => ⟨0, 1⟩, fun _ => ⟨0, 1⟩⟩

/-- Concrete constant fields for witnesses. -/
def fldsZero : Fields :=
  ⟨fun _ _ => EF.fin ⟨0, 1⟩, fun _ _ => EF.fin ⟨0, 1⟩, fun _ _ => EF.fin ⟨0, 1⟩⟩

/-- A concrete version-dependent compute function for the C9 witness. -/
def cFun : ℤ → MemoArgs → List EF := fun v _ => [EF.fin ⟨v, 1⟩]

/-- Helper: at any point where the selection condition of line 138 holds
(`np.isnan(P0) | (p > P0)`), the per-point rainfall rate is the literal `0`
branch of the `np.where`. -/
theorem rainfall_rate_point_invalid (F : FloatOps) (p : Fr) (Pr6 Mt Beta : EF)
    (h : EF.isnan (P0_guarded F Pr6 Mt Beta) = true ∨
         EF.gt (EF.fin p) (P0_guarded F Pr6 Mt Beta) = true) :
    rainfall_rate_point F p Pr6 Mt Beta = EF.fin ⟨0, 1⟩ := by
  unfold rainfall_rate_point npWhere
  rcases h with h | h <;> simp [h]

/-- Helper: the source's `computeRp` and the spec's quadratic formula are the
same function of `(A, B, C)`. -/
theorem computeRp_eq_Rp_spec (F : FloatOps) (p : Fr) (P0 Mc Ms : EF) :
    computeRp F p P0 Mc Ms = Rp_spec F p P0 Mc Ms := rfl

/-- C1 (code bug evidence): at a point where the interpolated `Pr6` is `0` and
`Ms = (1 - Beta) * Mt` is also `0` (here `Mt = 0`, `Beta = 1/2`),
`rain_percentage_probability` computes `Ms / Pr6 = 0/0 = NaN`, which propagates
to the returned `P0 = NaN` — not `0`: the division by `Pr6` is NOT guarded in
`rain_percentage_probability` (line 105).  The second conjunct shows the
guarded `P0` of `rainfall_rate` (line 121) is exactly `0` at the same point,
which is what the claim (and the evident intent) describes. -/
theorem C1_Pr6_zero_unguarded_nan (F : FloatOps) :
    P0_unguarded F (EF.fin ⟨0, 1⟩) (EF.fin ⟨0, 1⟩) (EF.fin ⟨1, 2⟩) = EF.nan ∧
    P0_guarded F (EF.fin ⟨0, 1⟩) (EF.fin ⟨0, 1⟩) (EF.fin ⟨1, 2⟩) = EF.fin ⟨0, 1⟩ := by
  constructor <;> rfl

/-- C2: at every query point where the guarded `P0` is NaN or `p > P0`, the
array returned by `rainfall_rate` holds exactly `0` at that point (the model is
a total function: the call returns a value, it does not raise). -/
theorem C2_invalid_region_returns_zero (F : FloatOps) (flds : Fields) (p : Fr)
    (pts : List (ℚ × ℚ)) (i : ℕ) (q : ℚ × ℚ) (hq : pts[i]? = some q)
    (h : EF.isnan (P0_guarded F (flds.Pr6 q.1 q.2) (flds.Mt q.1 q.2) (flds.Beta q.1 q.2)) = true ∨
         EF.gt (EF.fin p) (P0_guarded F (flds.Pr6 q.1 q.2) (flds.Mt q.1 q.2) (flds.Beta q.1 q.2)) = true) :
    (rainfall_rate6 F flds p pts)[i]? = some (EF.fin ⟨0, 1⟩) := by
  unfold rainfall_rate6
  rw [List.getElem?_map, hq]
  have hz := rainfall_rate_point_invalid F p (flds.Pr6 q.1 q.2) (flds.Mt q.1 q.2)
    (flds.Beta q.1 q.2) h
  simp [hz]

/-- Witness for C2: a point with `Pr6 = 0` has guarded `P0 = 0 < p = 1`. -/
theorem C2_witness :
    (rainfall_rate6 Ftest fldsZero ⟨1, 1⟩ [(0, 0)])[0]? = some (EF.fin ⟨0, 1⟩) :=
  C2_invalid_region_returns_zero Ftest fldsZero ⟨1, 1⟩ [(0, 0)] 0 (0, 0) rfl
    (Or.inr (by decide))

/-- C3: at every point where the selection condition of line 138 is false
(`P0` is a number and `p > P0` fails, i.e. `p ≤ P0` for non-NaN `p`), the value
returned by `rainfall_rate` is exactly the spec's quadratic-root formula
evaluated at `Mc = Beta * Mt`, `Ms = (1 - Beta) * Mt` and the guarded `P0`. -/
theorem C3_valid_region_quadratic (F : FloatOps) (p : Fr) (Pr6 Mt Beta : EF)
    (h1 : EF.isnan (P0_guarded F Pr6 Mt Beta) = false)
    (h2 : EF.gt (EF.fin p) (P0_guarded F Pr6 Mt Beta) = false) :
    rainfall_rate_point F p Pr6 Mt Beta =
      Rp_spec F p (P0_guarded F Pr6 Mt Beta) (Beta * Mt) ((EF.fin ⟨1, 1⟩ - Beta) * Mt) := by
  unfold rainfall_rate_point npWhere
  simp [h1, h2, computeRp_eq_Rp_spec]

/-- Witness for C3: `Pr6 = Mt = 1`, `Beta = 0`, `p = 1` with a FloatOps whose
exp is constantly `0` gives `P0 = 1`, a valid-region input. -/
theorem C3_witness :
    rainfall_rate_point Ftest ⟨1, 1⟩ (EF.fin ⟨1, 1⟩) (EF.fin ⟨1, 1⟩) (EF.fin ⟨0, 1⟩) =
      Rp_spec Ftest ⟨1, 1⟩ (P0_guarded Ftest (EF.fin ⟨1, 1⟩) (EF.fin ⟨1, 1⟩) (EF.fin ⟨0, 1⟩))
        (EF.fin ⟨0, 1⟩ * EF.fin ⟨1, 1⟩) ((EF.fin ⟨1, 1⟩ - EF.fin ⟨0, 1⟩) * EF.fin ⟨1, 1⟩) :=
  C3_valid_region_quadratic Ftest ⟨1, 1⟩ _ _ _ (by decide) (by decide)

/-- C4 (code bug evidence): the round trip holds for version 6 only.  For
every version in {1..5} the constructor evaluates an undefined class name
(`_ITU837_5` .. `_ITU837_1` do not exist in the module) and raises NameError,
leaving the active model unchanged — contradicting the claim and the code's
own docstrings, which list versions 1-6 as valid. -/
theorem C4_round_trip_only_version_6 :
    change_version 6 6 = (6, none) ∧ get_version (change_version 6 6).1 = 6 ∧
    change_version 5 6 = (6, some PyErr.nameErr) ∧
    change_version 4 6 = (6, some PyErr.nameErr) ∧
    change_version 3 6 = (6, some PyErr.nameErr) ∧
    change_version 2 6 = (6, some PyErr.nameErr) ∧
    change_version 1 6 = (6, some PyErr.nameErr) := by
  refine ⟨rfl, rfl, rfl, rfl, rfl, rfl, rfl⟩

/-- C5: for every version number outside {1..6}, `change_version` raises the
ValueError of the constructor's final else branch (the spec's InvalidVersion)
and the previously active model stays in place: the global is reassigned only
when the constructor returns, so there is no partial state. -/
theorem C5_invalid_version_valueError (n : ℤ) (s : ℤ) (h : n < 1 ∨ 6 < n) :
    change_version n s = (s, some PyErr.valueErr) := by
  have h6 : ¬ n = 6 := by omega
  have h5 : ¬ n = 5 := by omega
  have h4 : ¬ n = 4 := by omega
  have h3 : ¬ n = 3 := by omega
  have h2 : ¬ n = 2 := by omega
  have h1 : ¬ n = 1 := by omega
  unfold change_version ITU837_init
  simp [h6, h5, h4, h3, h2, h1]

/-- Witness for C5: `change_version(7)` fails with ValueError and version 6
stays active. -/
theorem C5_witness : change_version 7 6 = (6, some PyErr.valueErr) :=
  C5_invalid_version_valueError 7 6 (Or.inr (by decide))

/-- C6: `rain_percentage_probability` applies, at each interpolated point,
exactly the spec's formula `Ms = (1 - Beta) * Mt`,
`P0 = Pr6 * (1 - exp(-0.0079 * Ms / Pr6))`, and the returned array has the
same shape (length) as the input coordinates. -/
theorem C6_pointwise_formula_and_shape (F : FloatOps) (flds : Fields)
    (pts : List (ℚ × ℚ)) :
    rain_percentage_probability6 F flds pts =
      pts.map (fun q => P0_spec F (flds.Pr6 q.1 q.2) (flds.Mt q.1 q.2) (flds.Beta q.1 q.2)) ∧
    (rain_percentage_probability6 F flds pts).length = pts.length := by
  refine ⟨rfl, ?_⟩
  unfold rain_percentage_probability6
  simp

/-- C7 counterexample: the sqrt of the quadratic solver IS applied in the
invalid region.  `np.where` receives both branch arrays already evaluated, so
`computeRp` (line 133, sqrt included) is computed at every point.  At the
concrete invalid point below (`Pr6 = 0`, so `P0 = 0 < p = 1`), the discriminant
the code passes to `np.sqrt` is NaN (`B^2 - 4AC = inf - inf`) and `computeRp`
evaluates to NaN — the sqrt is not bypassed; only its result is discarded, and
the returned value is `0`. -/
theorem C7_sqrt_applied_in_invalid_region :
    EF.gt (EF.fin ⟨1, 1⟩)
      (P0_guarded Ftest (EF.fin ⟨0, 1⟩) (EF.fin ⟨1, 1⟩) (EF.fin ⟨0, 1⟩)) = true ∧
    quadDisc Ftest ⟨1, 1⟩ (P0_guarded Ftest (EF.fin ⟨0, 1⟩) (EF.fin ⟨1, 1⟩) (EF.fin ⟨0, 1⟩))
      (EF.fin ⟨0, 1⟩ * EF.fin ⟨1, 1⟩) ((EF.fin ⟨1, 1⟩ - EF.fin ⟨0, 1⟩) * EF.fin ⟨1, 1⟩) = EF.nan ∧
    computeRp Ftest ⟨1, 1⟩ (P0_guarded Ftest (EF.fin ⟨0, 1⟩) (EF.fin ⟨1, 1⟩) (EF.fin ⟨0, 1⟩))
      (EF.fin ⟨0, 1⟩ * EF.fin ⟨1, 1⟩) ((EF.fin ⟨1, 1⟩ - EF.fin ⟨0, 1⟩) * EF.fin ⟨1, 1⟩) = EF.nan ∧
    rainfall_rate_point Ftest ⟨1, 1⟩ (EF.fin ⟨0, 1⟩) (EF.fin ⟨1, 1⟩) (EF.fin ⟨0, 1⟩) =
      EF.fin ⟨0, 1⟩ := by
  decide

/-- C7 amended: in the invalid region the `np.where` selection discards the
(evaluated, possibly NaN) `computeRp` branch: the returned value is exactly `0`
and in particular never NaN — NaN does not propagate to the output. -/
theorem C7_invalid_region_no_nan_output (F : FloatOps) (p : Fr) (Pr6 Mt Beta : EF)
    (h : EF.isnan (P0_guarded F Pr6 Mt Beta) = true ∨
         EF.gt (EF.fin p) (P0_guarded F Pr6 Mt Beta) = true) :
    rainfall_rate_point F p Pr6 Mt Beta = EF.fin ⟨0, 1⟩ ∧
    EF.isnan (rainfall_rate_point F p Pr6 Mt Beta) = false := by
  have hz := rainfall_rate_point_invalid F p Pr6 Mt Beta h
  exact ⟨hz, by rw [hz]; rfl⟩

/-- Witness for C7 (amended): the invalid point of the counterexample yields
output `0`, not NaN. -/
theorem C7_witness :
    rainfall_rate_point Ftest ⟨1, 1⟩ (EF.fin ⟨0, 1⟩) (EF.fin ⟨1, 1⟩) (EF.fin ⟨0, 1⟩) =
      EF.fin ⟨0, 1⟩ ∧
    EF.isnan (rainfall_rate_point Ftest ⟨1, 1⟩ (EF.fin ⟨0, 1⟩) (EF.fin ⟨1, 1⟩)
      (EF.fin ⟨0, 1⟩)) = false :=
  C7_invalid_region_no_nan_output Ftest ⟨1, 1⟩ _ _ _ (Or.inr (by decide))

/-- Helper: `np.mod(·, 360)` is invariant under adding a full turn. -/
theorem normLon_add_360 (x : ℚ) : normLon (x + 360) = normLon x := by
  unfold normLon
  have hdiv : (x + 360) / 360 = x / 360 + 1 := by ring
  rw [hdiv, Int.floor_add_one]
  push_cast
  ring

/-- Helper: `np.mod(·, 360)` lands in `[0, 360)`. -/
theorem normLon_bounds (x : ℚ) : 0 ≤ normLon x ∧ normLon x < 360 := by
  unfold normLon
  have h1 : (⌊x / 360⌋ : ℚ) ≤ x / 360 := Int.floor_le _
  have h2 : x / 360 < (⌊x / 360⌋ : ℚ) + 1 := Int.lt_floor_add_one _
  constructor <;> linarith

/-- Helper: normalising after shifting every longitude by 360 gives the same
normalised points. -/
theorem normPts_shift (pts : List (ℚ × ℚ)) :
    (pts.map fun q => ((q.1 : ℚ), q.2 + 360)).map (fun q => ((q.1 : ℚ), normLon q.2)) =
      pts.map fun q => (q.1, normLon q.2) := by
  rw [List.map_map]
  refine List.map_congr_left ?_
  intro q _
  simp [Function.comp, normLon_add_360]

/-- C8: the facade normalises longitude into `[0, 360)` with `np.mod(lon, 360)`
before any lookup and passes latitude through unchanged; consequently both
public functions give identical results for `lon` and `lon + 360` (e.g. 370
and 10) at every latitude and every `p`, for every model and every field
data. -/
theorem C8_longitude_wraparound :
    (∀ x : ℚ, 0 ≤ normLon x ∧ normLon x < 360) ∧
    (∀ (F : FloatOps) (flds : Fields) (pts : List (ℚ × ℚ)),
      rain_percentage_probability_pub F flds (pts.map fun q => (q.1, q.2 + 360)) =
        rain_percentage_probability_pub F flds pts) ∧
    (∀ (F : FloatOps) (flds : Fields) (p : Fr) (pts : List (ℚ × ℚ)),
      rainfall_rate_pub F flds p (pts.map fun q => (q.1, q.2 + 360)) =
        rainfall_rate_pub F flds p pts) := by
  refine ⟨normLon_bounds, ?_, ?_⟩
  · intro F flds pts
    unfold rain_percentage_probability_pub rain_percentage_probability6
    rw [normPts_shift]
  · intro F flds p pts
    unfold rainfall_rate_pub rainfall_rate6
    rw [normPts_shift]

/-- C9: the memo cache is keyed on the call arguments alone.  After any version
change, a repeated call with previously seen arguments returns the cached
result unchanged — and when the first call was a cache miss, that result was
computed under the version active at that earlier time.  The cache is never
invalidated by a version change. -/
theorem C9_cache_ignores_version_change (compute : ℤ → MemoArgs → List EF)
    (s : MemoState) (a : MemoArgs) (v : ℤ) :
    (cachedCall compute (setActiveVersion v (cachedCall compute s a).2) a).1 =
      (cachedCall compute s a).1 ∧
    (memoLookup s.cache a = none →
      (cachedCall compute s a).1 = compute s.version a) := by
  constructor
  · cases h : memoLookup s.cache a with
    | some r => simp [cachedCall, setActiveVersion, h]
    | none => simp [cachedCall, setActiveVersion, h, memoLookup]
  · intro h
    simp [cachedCall, h]

/-- Witness for C9: a fresh call under version 6, then a version change to 5; a
repeated call returns the version-6 result from the cache. -/
theorem C9_witness :
    ((cachedCall cFun (setActiveVersion 5 (cachedCall cFun ⟨6, []⟩ (⟨1, 1⟩, [])).2)
        (⟨1, 1⟩, [])).1 =
      (cachedCall cFun ⟨6, []⟩ (⟨1, 1⟩, [])).1) ∧
    (cachedCall cFun ⟨6, []⟩ (⟨1, 1⟩, [])).1 = cFun 6 (⟨1, 1⟩, []) := by
  have h := C9_cache_ignores_version_change cFun ⟨6, []⟩ (⟨1, 1⟩, []) 5
  exact ⟨h.1, h.2 rfl⟩

/-- C10: wherever the interpolated `Pr6` is strictly positive, the guarded `P0`
computed internally by `rainfall_rate` (line 121) equals the value returned by
`rain_percentage_probability` (line 105): the `np.where(Pr6 > 0, ...)`
selection picks the very same formula. -/
theorem C10_P0_agreement_on_positive_Pr6 (F : FloatOps) (Pr6 Mt Beta : EF)
    (h : EF.gt Pr6 (EF.fin ⟨0, 1⟩) = true) :
    P0_guarded F Pr6 Mt Beta = P0_unguarded F Pr6 Mt Beta := by
  unfold P0_guarded npWhere
  simp [h]

/-- Witness for C10: a point with `Pr6 = 1 > 0`. -/
theorem C10_witness :
    P0_guarded Ftest (EF.fin ⟨1, 1⟩) (EF.fin ⟨2, 1⟩) (EF.fin ⟨0, 1⟩) =
      P0_unguarded Ftest (EF.fin ⟨1, 1⟩) (EF.fin ⟨2, 1⟩) (EF.fin ⟨0, 1⟩) :=
  C10_P0_agreement_on_positive_Pr6 Ftest _ _ _ (by decide)

end ITU837
